import Mathlib

/-!
Verification of the core pipeline of `reaction_finder.py`: the date-range
query builder, the search paginator, the per-message detail resolver and the
result ranker.  Python strings are modelled as `List Char`; the remote Slack
client is modelled by explicit function parameters (one per API capability);
fallible paths return `Except`/`Option` values mirroring the raised and
caught exceptions of the source.
-/

/-- Python strings are modelled as lists of characters. -/
abbrev Str := List Char

/-- Shorthand turning a Lean string literal into the `List Char` model. -/
def strL (s : String) : Str := s.toList

/-!
### SearchPaginator (`search_and_analyze`, pagination loop, lines 228-265)
-/

/-- `API_MAX_PER_PAGE = 100` from the source: the per-call cap of the search
endpoint. -/
def API_MAX_PER_PAGE : Nat := 100

/-- One call to `client.search_messages`: the keyword arguments passed by the
pagination loop (`query=`, `sort="timestamp"`, `sort_dir="desc"`, `count=`,
`page=`). -/
structure SearchCall where
  query : Str
  sort : Str
  sort_dir : Str
  count : Nat
  page : Nat
deriving DecidableEq, Repr

/-- The `while len(all_matches) < max_results` loop of `search_and_analyze`.
`endpoint` models the remote search endpoint (the matches it returns for a
given call).  Returns the accumulated matches and the list of calls issued.
The `fuel` argument bounds the recursion; every continuing iteration grows
the accumulator by at least one element, so `fuel = max_results` (as used by
`search_matches`) never runs out before the loop's own exit conditions. -/
def searchLoop (endpoint : SearchCall → List α) (query : Str) (max_results : Nat) :
    Nat → Nat → List α → List α × List SearchCall
  | 0, _, acc => (acc, [])
  | fuel + 1, page, acc =>
    if acc.length < max_results then
      let count := min API_MAX_PER_PAGE (max_results - acc.length)
      let call : SearchCall := ⟨query, strL "timestamp", strL "desc", count, page⟩
      let ms := endpoint call
      if ms.isEmpty then
        (acc, [call])
      else if ms.length < count ∨ max_results ≤ acc.length + ms.length then
        (acc ++ ms, [call])
      else
        let rest := searchLoop endpoint query max_results fuel (page + 1) (acc ++ ms)
        (rest.1, call :: rest.2)
    else (acc, [])

/-- The pagination phase of `search_and_analyze`: run the loop from page 1
with an empty accumulator, then truncate to `max_results`
(`all_matches[:max_results]`, line 265). -/
def search_matches (endpoint : SearchCall → List α) (query : Str) (max_results : Nat) :
    List α × List SearchCall :=
  let r := searchLoop endpoint query max_results max_results 1 []
  (r.1.take max_results, r.2)

/-- A remote endpoint serving exactly 100 matches on page 1 and 50 on page 2. -/
def ep150 : SearchCall → List Nat :=
  fun c => if c.page = 1 then List.replicate 100 0
           else if c.page = 2 then List.replicate 50 1 else []

/-- A remote endpoint serving 100 matches on page 1 (more than requested)
and nothing afterwards. -/
def ep50 : SearchCall → List Nat :=
  fun c => if c.page = 1 then List.replicate 100 0 else []

/-!
### DateRangeQueryBuilder (`build_date_query`, lines 104-164)

Python `datetime` values built by `strptime('%Y-%m-%d')` always carry a
midnight time, so they are modelled as plain calendar dates.  `timedelta`
subtraction is modelled through proleptic-Gregorian day ordinals (the same
day numbering as Python's `date.toordinal`, 0001-01-01 = 1); a result
outside datetime's supported range (years 1-9999) models the
`OverflowError` the subtraction raises there.
-/

/-- A calendar date (the date part of a Python `datetime`). -/
structure Date where
  year : Nat
  month : Nat
  day : Nat
deriving DecidableEq, Repr

/-- Numeric value of a decimal digit character. -/
def digitVal (c : Char) : Option Nat :=
  if c.isDigit then some (c.toNat - 48) else none

/-- The Gregorian leap-year rule used by Python's `calendar`/`datetime`. -/
def pyLeap (y : Nat) : Bool :=
  y % 4 == 0 && (y % 100 != 0 || y % 400 == 0)

/-- Length of a month, as validated by the `datetime` constructor. -/
def daysInMonth (y m : Nat) : Nat :=
  if m = 2 then (if pyLeap y then 29 else 28)
  else if m = 4 ∨ m = 6 ∨ m = 9 ∨ m = 11 then 30
  else 31

/-- One 1-2 digit numeric field of `strptime`: CPython compiles `%m` to the
regex `1[0-2]|0[1-9]|[1-9]` and `%d` to `3[01]|[12]\x5cd|0[1-9]|[1-9]`, i.e.
two digits whose value lies in `1..hi` (leading zero allowed), or a single
nonzero digit.  Returns the value and the unconsumed characters.  (The
regex engine's backtracking from the two-digit to the one-digit alternative
can never succeed here, because the character after a one-digit match would
be the second digit, while the format requires `-` or end of string.) -/
def parse2 (hi : Nat) : List Char → Option (Nat × List Char)
  | [] => none
  | [c] =>
    match digitVal c with
    | some d => if 1 ≤ d then some (d, []) else none
    | none => none
  | c1 :: c2 :: rest =>
    match digitVal c1, digitVal c2 with
    | some d1, some d2 =>
      if 1 ≤ 10 * d1 + d2 ∧ 10 * d1 + d2 ≤ hi then some (10 * d1 + d2, rest)
      else if 1 ≤ d1 then some (d1, c2 :: rest)
      else none
    | some d1, none => if 1 ≤ d1 then some (d1, c2 :: rest) else none
    | none, _ => none

/-- `datetime.strptime(s, '%Y-%m-%d')`: four year digits, a literal `-`, a
month field, a literal `-`, a day field consuming the rest of the string
(`strptime` rejects unconverted trailing data), then the `datetime`
constructor's range validation (`MINYEAR = 1`, day within the month). -/
def parse_date : List Char → Option Date
  | c1 :: c2 :: c3 :: c4 :: '-' :: rest =>
    match digitVal c1, digitVal c2, digitVal c3, digitVal c4 with
    | some y1, some y2, some y3, some y4 =>
      match parse2 12 rest with
      | some (m, '-' :: rest2) =>
        match parse2 31 rest2 with
        | some (d, []) =>
          let y := 1000 * y1 + 100 * y2 + 10 * y3 + y4
          if 1 ≤ y ∧ d ≤ daysInMonth y m then some ⟨y, m, d⟩ else none
        | _ => none
      | _ => none
    | _, _, _, _ => none
  | _ => none

/-- `date.toordinal()`: days since 0001-01-00 in the proleptic Gregorian
calendar (0001-01-01 = 1).  Uses the standard era decomposition. -/
def Date.toOrdinal (dt : Date) : Nat :=
  let y := if dt.month ≤ 2 then dt.year - 1 else dt.year
  let era := y / 400
  let yoe := y % 400
  let mp := if 3 ≤ dt.month then dt.month - 3 else dt.month + 9
  let doy := (153 * mp + 2) / 5 + dt.day - 1
  let doe := yoe * 365 + yoe / 4 - yoe / 100 + doy
  era * 146097 + doe - 305

/-- `date.fromordinal(n)`: inverse of `Date.toOrdinal` on `1..3652059`. -/
def Date.fromOrdinal (n : Nat) : Date :=
  let z := n + 305
  let era := z / 146097
  let doe := z % 146097
  let yoe := (doe - doe / 1460 + doe / 36524 - doe / 146096) / 365
  let y := era * 400 + yoe
  let doy := doe - (365 * yoe + yoe / 4 - yoe / 100)
  let mp := (5 * doy + 2) / 153
  let d := doy - (153 * mp + 2) / 5 + 1
  let m := if mp < 10 then mp + 3 else mp - 9
  if m ≤ 2 then ⟨y + 1, m, d⟩ else ⟨y, m, d⟩

/-- `date(9999, 12, 31).toordinal()`, the largest ordinal `datetime`
supports. -/
def maxOrdinal : Nat := 3652059

/-- Zero-padded decimal rendering, as `strftime` does for `%m`/`%d`. -/
def pad (w n : Nat) : Str :=
  let s := Nat.toDigits 10 n
  List.replicate (w - s.length) '0' ++ s

/-- `strftime('%Y-%m-%d')` as CPython/glibc renders it: `%m` and `%d` are
zero-padded to two digits, while `%Y` is the plain decimal year with no
padding (a year below 1000 keeps its natural width, e.g. `929-11-02`). -/
def formatDate (dt : Date) : Str :=
  Nat.toDigits 10 dt.year ++ ['-'] ++ pad 2 dt.month ++ ['-'] ++ pad 2 dt.day

/-- Python `str.strip()`: remove leading and trailing whitespace. -/
def pyStrip (s : Str) : Str :=
  ((s.dropWhile Char.isWhitespace).reverse.dropWhile Char.isWhitespace).reverse

/-- `datetime` comparison `a < b` (dates compare lexicographically; both
operands here carry midnight times). -/
def dateLtB (a b : Date) : Bool :=
  a.year < b.year ||
    (a.year == b.year && (a.month < b.month || (a.month == b.month && a.day < b.day)))

/-- The date-related command-line options consumed by `build_date_query`.
`argparse` leaves an option at `None` when not supplied. -/
structure Args where
  onDate : Option Str
  after : Option Str
  before : Option Str
  days : Option Int

/-- Python truthiness of an optional string (`None` and `""` are falsy). -/
def truthyS : Option Str → Bool
  | none => false
  | some s => !s.isEmpty

/-- Python truthiness of an optional integer (`None` and `0` are falsy). -/
def truthyI : Option Int → Bool
  | none => false
  | some n => n != 0

/-- The exceptions `build_date_query` can raise: the `ValueError`s it raises
itself, and the `OverflowError` escaping from a `datetime` subtraction whose
result falls outside years 1-9999 (not caught by its `except ValueError`). -/
inductive DateError where
  | valueError (msg : Str)
  | overflowError
deriving DecidableEq, Repr

/-- `build_date_query` (lines 104-164).  `today` stands for
`datetime.now()`, used only by the anchorless `--days` branch. -/
def build_date_query (today : Date) (args : Args) : Except DateError Str :=
  if truthyS args.onDate then
    match parse_date (args.onDate.getD []) with
    | some _ => .ok (strL "on:" ++ args.onDate.getD [])
    | none => .error (.valueError (strL "--on の日付形式が正しくありません（YYYY-MM-DD）"))
  else if truthyI args.days then
    if truthyS args.before then
      match parse_date (args.before.getD []) with
      | some end_date =>
        let ord : Int := (end_date.toOrdinal : Int) - args.days.getD 0
        if 1 ≤ ord ∧ ord ≤ (maxOrdinal : Int) then
          .ok (pyStrip (strL "after:" ++ formatDate (Date.fromOrdinal ord.toNat) ++
            strL " before:" ++ args.before.getD []))
        else .error .overflowError
      | none => .error (.valueError (strL "--before の日付形式が正しくありません（YYYY-MM-DD）"))
    else
      let ord : Int := (today.toOrdinal : Int) - args.days.getD 0
      if 1 ≤ ord ∧ ord ≤ (maxOrdinal : Int) then
        .ok (pyStrip (strL "after:" ++ formatDate (Date.fromOrdinal ord.toNat)))
      else .error .overflowError
  else if truthyS args.after || truthyS args.before then
    match (if truthyS args.after then
            match parse_date (args.after.getD []) with
            | some d => Except.ok (some d)
            | none => Except.error (DateError.valueError
                (strL "--after の日付形式が正しくありません（YYYY-MM-DD）"))
          else Except.ok none) with
    | .error e => .error e
    | .ok after_date =>
      match (if truthyS args.before then
              match parse_date (args.before.getD []) with
              | some d => Except.ok (some d)
              | none => Except.error (DateError.valueError
                  (strL "--before の日付形式が正しくありません（YYYY-MM-DD）"))
            else Except.ok none) with
      | .error e => .error e
      | .ok before_date =>
        match after_date, before_date with
        | some ad, some bd =>
          if ad = bd then
            .ok (pyStrip (strL "on:" ++ args.after.getD []))
          else if dateLtB bd ad then
            .error (.valueError (strL "日付の指定が不正です: --after (" ++ args.after.getD [] ++
              strL ") が --before (" ++ args.before.getD [] ++
              strL ") より後になっています。\n正しい順序で指定してください（例: --after 2025-02-01 --before 2025-10-31）"))
          else
            .ok (pyStrip (strL "after:" ++ args.after.getD [] ++ strL " before:" ++
              args.before.getD []))
        | _, _ =>
          .ok (pyStrip ((if truthyS args.after then strL "after:" ++ args.after.getD [] ++ [' ']
              else []) ++
            (if truthyS args.before then strL "before:" ++ args.before.getD [] else [])))
  else .ok (pyStrip [])

/-!
### MessageDetailResolver (`get_user_name`, `fetch_message_details`,
lines 167-216) and ResultRanker (`search_and_analyze`, lines 267-282)

The `datetime.fromtimestamp(float(match["ts"]))` field of the returned
record (floating-point epoch seconds rendered in local time) is outside the
embedding; the record keeps the original timestamp string, from which that
field is derived, and no claim touches the derived value.
-/

/-- One raw search hit, as consumed by `fetch_message_details`
(`match["channel"]["id"]`, `match["channel"]["name"]`, `match["ts"]`,
`match["permalink"]`). -/
structure RawMatch where
  channel_id : Str
  channel_name : Str
  ts : Str
  permalink : Str
deriving DecidableEq, Repr

/-- One entry of a message's reaction list (`name`, `count`). -/
structure Reaction where
  name : Str
  count : Nat
deriving DecidableEq, Repr

/-- A message record returned by `conversations_history`: `text`, `user`
and `reactions` are optional keys of the response dict. -/
structure SlackMessage where
  text : Option Str
  user : Option Str
  reactions : Option (List Reaction)
deriving DecidableEq, Repr

/-- Outcome of a `conversations_history` call: its `messages` list, or a
`SlackApiError` carrying `e.response["error"]`. -/
inductive HistoryResult where
  | ok (messages : List SlackMessage)
  | apiError (code : Str)
deriving DecidableEq, Repr

/-- The qualifying record built by `fetch_message_details` (lines 203-211);
the derived `datetime` field is represented by the `timestamp` string it is
computed from. -/
structure MessageDetail where
  text : Str
  user : Str
  count : Nat
  channel_name : Str
  timestamp : Str
  permalink : Str
deriving DecidableEq, Repr

/-- The default used for a missing `text` key (line 204). -/
def noTextPlaceholder : Str := strL "(テキストなし)"

/-- `get_user_name` (lines 167-173): `users_info` models the user-lookup
call, `none` standing for any raised exception (or missing key) caught by
the bare `except`, in which case the raw identifier is returned. -/
def get_user_name (users_info : Str → Option Str) (user_id : Str) : Str :=
  match users_info user_id with
  | some realName => realName
  | none => user_id

/-- `fetch_message_details` (lines 176-216).  `history` models the
`conversations_history` call (keyed by channel id and `latest` timestamp;
`inclusive=True`, `limit=1` are fixed).  Returns the optional qualifying
record together with the warnings printed to the observability channel:
a `channel_not_found` error is swallowed silently, any other
`SlackApiError` is printed; both yield `none`. -/
def fetch_message_details (history : Str → Str → HistoryResult)
    (users_info : Str → Option Str) (mtch : RawMatch) (target_emoji : Str) :
    Option MessageDetail × List Str :=
  match history mtch.channel_id mtch.ts with
  | .apiError code =>
    if code = strL "channel_not_found" then (none, [])
    else (none, [strL "⚠️ エラー: " ++ code])
  | .ok msgs =>
    match msgs with
    | [] => (none, [])
    | message :: _ =>
      match message.reactions with
      | none => (none, [])
      | some reactions =>
        match reactions.find? (fun r => r.name == target_emoji) with
        | none => (none, [])
        | some reaction =>
          (some { text := message.text.getD noTextPlaceholder
                  user := get_user_name users_info (message.user.getD [])
                  count := reaction.count
                  channel_name := mtch.channel_name
                  timestamp := mtch.ts
                  permalink := mtch.permalink }, [])

/-- The per-match resolution loop of `search_and_analyze` (lines 267-275):
resolve each match in order, keep the qualifying records, accumulate the
printed warnings.  A failed match contributes nothing and the loop simply
continues with the next one. -/
def collect_details (history : Str → Str → HistoryResult)
    (users_info : Str → Option Str) (target_emoji : Str) :
    List RawMatch → List MessageDetail × List Str
  | [] => ([], [])
  | m :: ms =>
    let r := fetch_message_details history users_info m target_emoji
    let rest := collect_details history users_info target_emoji ms
    ((match r.1 with
      | some d => d :: rest.1
      | none => rest.1), r.2 ++ rest.2)

/-- The ResultRanker (line 280):
`messages_with_reactions.sort(key=lambda x: x["count"], reverse=True)`.
Python's `list.sort` is stable, and with `reverse=True` it is the stable
descending order; the unique stable result is modelled by insertion sort
with the relation "left count at least right count". -/
def rank_messages (l : List MessageDetail) : List MessageDetail :=
  List.insertionSort (fun x y => y.count ≤ x.count) l

/-- `search_and_analyze` (lines 219-282) end to end: paginate, resolve each
match, rank by count. -/
def search_and_analyze (endpoint : SearchCall → List RawMatch)
    (history : Str → Str → HistoryResult) (users_info : Str → Option Str)
    (search_query target_emoji : Str) (max_results : Nat) :
    List MessageDetail × List Str :=
  let s := search_matches endpoint search_query max_results
  let c := collect_details history users_info target_emoji s.1
  (rank_messages c.1, c.2)

instance : IsTrans MessageDetail (fun x y => y.count ≤ x.count) :=
  ⟨fun _ _ _ h1 h2 => le_trans h2 h1⟩

instance : IsTotal MessageDetail (fun x y => y.count ≤ x.count) :=
  ⟨fun x y => (Nat.le_total y.count x.count)⟩

/-- A concrete environment where the fetched message carries the target
reaction but its `text` key holds the empty string. -/
def histEmptyText : Str → Str → HistoryResult :=
  fun _ _ => .ok [{ text := some [], user := some (strL "U1"),
                    reactions := some [⟨strL "pray", 5⟩] }]

/-- A concrete environment where the fetched message has no `user` key. -/
def histNoUser : Str → Str → HistoryResult :=
  fun _ _ => .ok [{ text := some (strL "hi"), user := none,
                    reactions := some [⟨strL "pray", 5⟩] }]

/-- A user lookup that always fails. -/
def usersFail : Str → Option Str := fun _ => none

/-- A history call that always fails with `channel_not_found`. -/
def histNotFound : Str → Str → HistoryResult :=
  fun _ _ => .apiError (strL "channel_not_found")

/-- A history call that always fails with `ratelimited`. -/
def histRateLimited : Str → Str → HistoryResult :=
  fun _ _ => .apiError (strL "ratelimited")

/-- An arbitrary concrete raw match. -/
def matchEx : RawMatch := ⟨strL "C123", strL "general", strL "1609459200.000000", strL "L"⟩

/-- A record with a given count (the other fields irrelevant to ranking). -/
def recC (n : Nat) : MessageDetail := ⟨strL "m", strL "u", n, strL "c", strL "t", strL "p"⟩

set_option maxRecDepth 8000 in
/-- C1: on each iteration the paginator requests `min(100, target -
accumulated)` items for the current (1-based) page, sorted by timestamp
descending, appends the returned matches, and stops exactly when the page
returned strictly fewer matches than requested or the accumulator reached
the target; in particular a target of 150 against `ep150` issues exactly the
two calls `(page 1, count 100)` and `(page 2, count 50)` and yields 150
matches. -/
theorem claim_C1 :
    (∀ (α : Type) (endpoint : SearchCall → List α) (query : Str)
        (max_results fuel page : Nat) (acc : List α),
        acc.length < max_results →
        searchLoop endpoint query max_results (fuel + 1) page acc =
          (let count := min 100 (max_results - acc.length)
           let call : SearchCall := ⟨query, strL "timestamp", strL "desc", count, page⟩
           let ms := endpoint call
           if ms.length < count ∨ max_results ≤ acc.length + ms.length then
             (acc ++ ms, [call])
           else
             ((searchLoop endpoint query max_results fuel (page + 1) (acc ++ ms)).1,
              call :: (searchLoop endpoint query max_results fuel (page + 1) (acc ++ ms)).2))) ∧
    (∀ (α : Type) (endpoint : SearchCall → List α) (query : Str)
        (max_results fuel page : Nat) (acc : List α),
        max_results ≤ acc.length →
        searchLoop endpoint query max_results fuel page acc = (acc, [])) ∧
    (search_matches ep150 (strL "has::pray:") 150).2 =
      [⟨strL "has::pray:", strL "timestamp", strL "desc", 100, 1⟩,
       ⟨strL "has::pray:", strL "timestamp", strL "desc", 50, 2⟩] ∧
    (search_matches ep150 (strL "has::pray:") 150).1.length = 150 := by
  refine ⟨?_, ?_, by decide, by decide⟩
  · intro α endpoint query max_results fuel page acc h
    have hcount : 0 < min 100 (max_results - acc.length) :=
      Nat.lt_min.mpr ⟨by norm_num, Nat.sub_pos_of_lt h⟩
    rcases hms : endpoint ⟨query, strL "timestamp", strL "desc",
        min 100 (max_results - acc.length), page⟩ with _ | ⟨a, as⟩
    · simp [searchLoop, if_pos h, API_MAX_PER_PAGE, hms, hcount]
    · simp [searchLoop, if_pos h, API_MAX_PER_PAGE, hms]
  · intro α endpoint query max_results fuel page acc h
    cases fuel with
    | zero => rfl
    | succ n => simp [searchLoop, Nat.not_lt.mpr h]

set_option maxRecDepth 8000 in
/-- C1 witness: the step equation instantiated at the first page of the
150-target run, and the reached-target equation at a full accumulator. -/
theorem claim_C1_witness :
    (searchLoop ep150 (strL "has::pray:") 150 (149 + 1) 1 ([] : List Nat) =
      (let count := min 100 (150 - ([] : List Nat).length)
       let call : SearchCall := ⟨strL "has::pray:", strL "timestamp", strL "desc", count, 1⟩
       let ms := ep150 call
       if ms.length < count ∨ 150 ≤ ([] : List Nat).length + ms.length then
         ([] ++ ms, [call])
       else
         ((searchLoop ep150 (strL "has::pray:") 150 149 2 ([] ++ ms)).1,
          call :: (searchLoop ep150 (strL "has::pray:") 150 149 2 ([] ++ ms)).2))) ∧
    searchLoop ep150 (strL "has::pray:") 150 7 3 (List.replicate 150 (0 : Nat)) =
      (List.replicate 150 0, []) :=
  ⟨claim_C1.1 Nat ep150 (strL "has::pray:") 150 149 1 [] (by decide),
   claim_C1.2.1 Nat ep150 (strL "has::pray:") 150 7 3 (List.replicate 150 0) (by simp)⟩

set_option maxRecDepth 8000 in
/-- C2: the paginator never hands on more than `max_results` matches (the
accumulator is truncated after the loop), and a target of 50 against an
endpoint returning 100 matches on page 1 issues exactly one call requesting
50 and keeps exactly 50 matches. -/
theorem claim_C2 :
    (∀ (α : Type) (endpoint : SearchCall → List α) (query : Str) (max_results : Nat),
        0 < max_results →
        (search_matches endpoint query max_results).1.length ≤ max_results) ∧
    (search_matches ep50 (strL "has::pray:") 50).2 =
      [⟨strL "has::pray:", strL "timestamp", strL "desc", 50, 1⟩] ∧
    (search_matches ep50 (strL "has::pray:") 50).1.length = 50 := by
  refine ⟨?_, by decide, by decide⟩
  intro α endpoint query max_results _
  simp only [search_matches]
  exact (List.length_take _ _).trans_le (Nat.min_le_left _ _)

/-- C2 witness: the length bound instantiated at the concrete 50-target run. -/
theorem claim_C2_witness :
    (search_matches ep50 (strL "has::pray:") 50).1.length ≤ 50 :=
  claim_C2.1 Nat ep50 (strL "has::pray:") 50 (by decide)

/-- A digit value is only returned for digit characters. -/
theorem digitVal_isDigit {c : Char} {d : Nat} (h : digitVal c = some d) :
    c.isDigit = true := by
  by_cases hc : c.isDigit
  · exact hc
  · simp [digitVal, hc] at h

/-- Digit characters are not whitespace. -/
theorem isDigit_not_isWhitespace {c : Char} (h : c.isDigit = true) :
    c.isWhitespace = false := by
  rcases Bool.eq_false_or_eq_true c.isWhitespace with hw | hw
  · exfalso
    simp [Char.isWhitespace] at hw
    rcases hw with ((h1 | h1) | h1) | h1 <;> subst h1 <;> exact absurd h (by decide)
  · exact hw

/-- A field parse that consumes its whole input ends on a digit. -/
theorem parse2_last {hi v : Nat} {cs : Str} (h : parse2 hi cs = some (v, [])) :
    ∃ pre c, cs = pre ++ [c] ∧ c.isDigit = true := by
  match cs with
  | [] => simp [parse2] at h
  | [c] =>
    rcases h1 : digitVal c with _ | d
    · simp [parse2, h1] at h
    · exact ⟨[], c, rfl, digitVal_isDigit h1⟩
  | c1 :: c2 :: rest =>
    rcases h1 : digitVal c1 with _ | d1 <;> rcases h2 : digitVal c2 with _ | d2
    · simp [parse2, h1, h2] at h
    · simp [parse2, h1, h2] at h
    · simp only [parse2, h1, h2] at h
      split at h <;> simp at h
    · simp only [parse2, h1, h2] at h
      split at h
      · simp only [Option.some.injEq, Prod.mk.injEq] at h
        obtain ⟨-, hrest⟩ := h
        subst hrest
        exact ⟨[c1], c2, rfl, digitVal_isDigit h2⟩
      · split at h <;> simp at h

/-- A successful field parse consumes a prefix of its input. -/
theorem parse2_append {hi v : Nat} {cs rest : Str} (h : parse2 hi cs = some (v, rest)) :
    ∃ pre, cs = pre ++ rest := by
  match cs with
  | [] => simp [parse2] at h
  | [c] =>
    rcases h1 : digitVal c with _ | d
    · simp [parse2, h1] at h
    · simp only [parse2, h1] at h
      split at h
      · simp only [Option.some.injEq, Prod.mk.injEq] at h
        obtain ⟨-, hrest⟩ := h
        exact ⟨[c], by simp [hrest]⟩
      · simp at h
  | c1 :: c2 :: tl =>
    rcases h1 : digitVal c1 with _ | d1 <;> rcases h2 : digitVal c2 with _ | d2
    · simp [parse2, h1, h2] at h
    · simp [parse2, h1, h2] at h
    · simp only [parse2, h1, h2] at h
      split at h
      · simp only [Option.some.injEq, Prod.mk.injEq] at h
        obtain ⟨-, hrest⟩ := h
        exact ⟨[c1], by simp [hrest]⟩
      · simp at h
    · simp only [parse2, h1, h2] at h
      split at h
      · simp only [Option.some.injEq, Prod.mk.injEq] at h
        obtain ⟨-, hrest⟩ := h
        exact ⟨[c1, c2], by simp [hrest]⟩
      · split at h
        · simp only [Option.some.injEq, Prod.mk.injEq] at h
          obtain ⟨-, hrest⟩ := h
          exact ⟨[c1], by simp [hrest]⟩
        · simp at h

/-- A string accepted by `parse_date` ends on a digit character. -/
theorem parse_date_last {s : Str} {dt : Date} (h : parse_date s = some dt) :
    ∃ pre c, s = pre ++ [c] ∧ c.isDigit = true := by
  unfold parse_date at h
  split at h
  case _ c1 c2 c3 c4 rest =>
    split at h
    case _ y1 y2 y3 y4 h1 h2 h3 h4 =>
      split at h
      case _ m rest2 hm =>
        split at h
        case _ d hd =>
          obtain ⟨pre2, c, hc, hdig⟩ := parse2_last hd
          obtain ⟨pre1, hp1⟩ := parse2_append hm
          refine ⟨c1 :: c2 :: c3 :: c4 :: '-' :: (pre1 ++ '-' :: pre2), c, ?_, hdig⟩
          simp [hp1, hc]
        all_goals simp at h
      all_goals simp at h
    all_goals simp at h
  case _ => simp at h

/-- A string accepted by `parse_date` is nonempty. -/
theorem parse_date_ne_nil {s : Str} {dt : Date} (h : parse_date s = some dt) :
    s ≠ [] := by
  obtain ⟨pre, c, hc, -⟩ := parse_date_last h
  simp [hc]

/-- `str.strip()` is the identity on a string whose first and last
characters are not whitespace. -/
theorem pyStrip_eq_self {l : Str} {a b : Char} {p q : Str}
    (hl1 : l = a :: p) (hl2 : l = q ++ [b])
    (ha : a.isWhitespace = false) (hb : b.isWhitespace = false) :
    pyStrip l = l := by
  have h1 : l.dropWhile Char.isWhitespace = l := by
    rw [hl1, List.dropWhile_cons, ha]
    simp
  unfold pyStrip
  rw [h1, hl2]
  simp [List.dropWhile_cons, hb]

/-- C4: for well-formed equal start and end days (and no `--days` window),
the builder collapses the range to the single-day fragment `on:<day>`. -/
theorem claim_C4 (today : Date) (a b : Str) (d1 d2 : Date)
    (ha : parse_date a = some d1) (hb : parse_date b = some d2) (heq : d1 = d2) :
    build_date_query today ⟨none, some a, some b, none⟩ = .ok (strL "on:" ++ a) := by
  subst heq
  obtain ⟨preA, ca, haeq, hadig⟩ := parse_date_last ha
  have hane : a ≠ [] := by simp [haeq]
  have hbne : b ≠ [] := parse_date_ne_nil hb
  have hstrip : pyStrip (strL "on:" ++ a) = strL "on:" ++ a := by
    refine pyStrip_eq_self (a := 'o') (p := strL "n:" ++ a) (b := ca)
      (q := strL "on:" ++ preA) rfl ?_ (by decide) (isDigit_not_isWhitespace hadig)
    rw [haeq]
    simp
  simp [build_date_query, truthyS, truthyI, hane, hbne, ha, hb, hstrip]

/-- C4 witness: equal explicit bounds `2024-06-15`/`2024-06-15` collapse to
`on:2024-06-15`. -/
theorem claim_C4_witness :
    build_date_query ⟨2024, 2, 15⟩
        ⟨none, some (strL "2024-06-15"), some (strL "2024-06-15"), none⟩ =
      .ok (strL "on:" ++ strL "2024-06-15") :=
  claim_C4 ⟨2024, 2, 15⟩ (strL "2024-06-15") (strL "2024-06-15") ⟨2024, 6, 15⟩ ⟨2024, 6, 15⟩
    (by decide) (by decide) rfl

/-- C5: for well-formed bounds with the start day strictly after the end
day (and no `--days` window), the builder raises a `ValueError` whose
message contains both literal date strings, and returns no fragment. -/
theorem claim_C5 (today : Date) (a b : Str) (d1 d2 : Date)
    (ha : parse_date a = some d1) (hb : parse_date b = some d2)
    (hlt : dateLtB d2 d1 = true) :
    ∃ msg, build_date_query today ⟨none, some a, some b, none⟩ =
        .error (.valueError msg) ∧
      ∃ p q r, msg = p ++ a ++ q ++ b ++ r := by
  have hane : a ≠ [] := parse_date_ne_nil ha
  have hbne : b ≠ [] := parse_date_ne_nil hb
  have hne : d1 ≠ d2 := by
    intro heq
    subst heq
    have : dateLtB d1 d1 = false := by simp [dateLtB]
    rw [this] at hlt
    cases hlt
  refine ⟨_, ?_, strL "日付の指定が不正です: --after (",
    strL ") が --before (",
    strL ") より後になっています。\n正しい順序で指定してください（例: --after 2025-02-01 --before 2025-10-31）", rfl⟩
  simp [build_date_query, truthyS, truthyI, hane, hbne, ha, hb, hne, hlt]

/-- C5 witness: `--after 2024-12-31 --before 2024-01-01` is rejected with a
message quoting both dates. -/
theorem claim_C5_witness :
    ∃ msg, build_date_query ⟨2024, 2, 15⟩
        ⟨none, some (strL "2024-12-31"), some (strL "2024-01-01"), none⟩ =
        .error (.valueError msg) ∧
      ∃ p q r, msg = p ++ strL "2024-12-31" ++ q ++ strL "2024-01-01" ++ r :=
  claim_C5 ⟨2024, 2, 15⟩ (strL "2024-12-31") (strL "2024-01-01") ⟨2024, 12, 31⟩ ⟨2024, 1, 1⟩
    (by decide) (by decide) (by decide)

/-- C3 counterexample: `--days 0 --before 2024-12-31` does not produce the
closed range the claim promises for every `days` value; `0` is falsy in
Python, so the `days` branch (line 116) is skipped entirely and the builder
returns the one-sided `before:` fragment instead. -/
theorem claim_C3_counterexample :
    build_date_query ⟨2024, 2, 15⟩ ⟨none, none, some (strL "2024-12-31"), some 0⟩ =
      .ok (strL "before:2024-12-31") ∧
    strL "before:2024-12-31" ≠ strL "after:2024-12-31 before:2024-12-31" :=
  ⟨rfl, by decide⟩

/-- C3 (amended): for every nonzero trailing-window count together with a
well-formed end-day, the builder computes the window start by calendar
subtraction (`end - days` on day ordinals) and returns the closed range
`after:<start> before:<end>`, provided the start stays within datetime's
supported years 1-9999; outside that range the subtraction overflows (and
for `days = 0` the window branch is skipped, see the counterexample).  In
particular `days = 90`, `before = 2024-12-31` yields exactly
`after:2024-10-02 before:2024-12-31`. -/
theorem claim_C3 :
    (∀ (today : Date) (a : Option Str) (b : Str) (days : Int) (e : Date),
        days ≠ 0 →
        parse_date b = some e →
        1 ≤ (e.toOrdinal : Int) - days →
        (e.toOrdinal : Int) - days ≤ (maxOrdinal : Int) →
        build_date_query today ⟨none, a, some b, some days⟩ =
          .ok (strL "after:" ++ formatDate (Date.fromOrdinal ((e.toOrdinal : Int) - days).toNat) ++
            strL " before:" ++ b)) ∧
    (∀ (today : Date) (a : Option Str) (b : Str) (days : Int) (e : Date),
        days ≠ 0 →
        parse_date b = some e →
        ¬(1 ≤ (e.toOrdinal : Int) - days ∧ (e.toOrdinal : Int) - days ≤ (maxOrdinal : Int)) →
        build_date_query today ⟨none, a, some b, some days⟩ = .error .overflowError) ∧
    build_date_query ⟨2024, 2, 15⟩ ⟨none, none, some (strL "2024-12-31"), some 90⟩ =
      .ok (strL "after:2024-10-02 before:2024-12-31") := by
  refine ⟨?_, ?_, rfl⟩
  · intro today a b days e hdays hb h1 h2
    obtain ⟨preB, cb, hbeq, hbdig⟩ := parse_date_last hb
    have hbne : b ≠ [] := parse_date_ne_nil hb
    have hstrip : pyStrip (strL "after:" ++
        (formatDate (Date.fromOrdinal ((e.toOrdinal : Int) - days).toNat) ++
          (strL " before:" ++ b))) = strL "after:" ++
        (formatDate (Date.fromOrdinal ((e.toOrdinal : Int) - days).toNat) ++
          (strL " before:" ++ b)) := by
      refine pyStrip_eq_self (a := 'a')
        (p := strL "fter:" ++ (formatDate (Date.fromOrdinal ((e.toOrdinal : Int) - days).toNat) ++
          (strL " before:" ++ b)))
        (b := cb)
        (q := strL "after:" ++ (formatDate (Date.fromOrdinal ((e.toOrdinal : Int) - days).toNat) ++
          (strL " before:" ++ preB)))
        rfl ?_ (by decide) (isDigit_not_isWhitespace hbdig)
      rw [hbeq]
      simp
    simp [build_date_query, truthyS, truthyI, hdays, hbne, hb, h1, h2, hstrip]
  · intro today a b days e hdays hb hrange
    have hbne : b ≠ [] := parse_date_ne_nil hb
    simp only [build_date_query, truthyS, truthyI]
    simp only [Option.getD_some, hb]
    rw [if_neg (by simp), if_pos (by simp [hdays]), if_pos (by simp [hbne])]
    rw [if_neg hrange]

/-- C3 witness: the amended range equation at `days = 90`,
`before = 2024-12-31`, and the overflow branch at `days = 800000`. -/
theorem claim_C3_witness :
    (build_date_query ⟨2024, 2, 15⟩ ⟨none, none, some (strL "2024-12-31"), some 90⟩ =
      .ok (strL "after:" ++
        formatDate (Date.fromOrdinal (((Date.mk 2024 12 31).toOrdinal : Int) - 90).toNat) ++
        strL " before:" ++ strL "2024-12-31")) ∧
    build_date_query ⟨2024, 2, 15⟩ ⟨none, none, some (strL "2024-12-31"), some 800000⟩ =
      .error .overflowError :=
  ⟨claim_C3.1 ⟨2024, 2, 15⟩ none (strL "2024-12-31") 90 ⟨2024, 12, 31⟩
      (by decide) (by decide) (by decide) (by decide),
   claim_C3.2.1 ⟨2024, 2, 15⟩ none (strL "2024-12-31") 800000 ⟨2024, 12, 31⟩
      (by decide) (by decide) (by decide)⟩

/-- C6 counterexample: a fetched message whose `text` key is present but
empty yields a record whose text is the empty string, not the placeholder
(`dict.get` only falls back on an absent key), contradicting "the fixed
placeholder whenever the text is absent or empty". -/
theorem claim_C6_counterexample :
    (fetch_message_details histEmptyText usersFail matchEx (strL "pray")).1.map
        MessageDetail.text = some [] ∧
    ([] : Str) ≠ noTextPlaceholder :=
  ⟨rfl, by decide⟩

/-- C6 (amended): for every fetched message that qualifies, the record's
text is the message text whenever the `text` key is present (even when it
is empty), and the fixed placeholder exactly when the key is absent. -/
theorem claim_C6 (history : Str → Str → HistoryResult) (users_info : Str → Option Str)
    (mtch : RawMatch) (target : Str) (message : SlackMessage)
    (rest : List SlackMessage) (reactions : List Reaction) (reaction : Reaction)
    (hh : history mtch.channel_id mtch.ts = .ok (message :: rest))
    (hr : message.reactions = some reactions)
    (hf : reactions.find? (fun r => r.name == target) = some reaction) :
    (fetch_message_details history users_info mtch target).1.map MessageDetail.text =
      some (message.text.getD noTextPlaceholder) := by
  simp [fetch_message_details, hh, hr, hf]

/-- C6 witness: the amended text rule applied to the concrete
empty-text environment. -/
theorem claim_C6_witness :
    (fetch_message_details histEmptyText usersFail matchEx (strL "pray")).1.map
        MessageDetail.text = some ((some ([] : Str)).getD noTextPlaceholder) :=
  claim_C6 histEmptyText usersFail matchEx (strL "pray")
    { text := some [], user := some (strL "U1"), reactions := some [⟨strL "pray", 5⟩] }
    [] [⟨strL "pray", 5⟩] ⟨strL "pray", 5⟩ rfl rfl (by decide)

/-- C7: a `channel_not_found` failure of the message fetch yields an absent
resolution with no surfaced warning; any other error code yields an absent
resolution plus a surfaced warning; and the resolution loop distributes
over list concatenation, so a failing match never aborts the batch — later
matches are still processed. -/
theorem claim_C7 :
    (∀ (history : Str → Str → HistoryResult) (users_info : Str → Option Str)
        (mtch : RawMatch) (target code : Str),
        history mtch.channel_id mtch.ts = .apiError code →
        code = strL "channel_not_found" →
        fetch_message_details history users_info mtch target = (none, [])) ∧
    (∀ (history : Str → Str → HistoryResult) (users_info : Str → Option Str)
        (mtch : RawMatch) (target code : Str),
        history mtch.channel_id mtch.ts = .apiError code →
        code ≠ strL "channel_not_found" →
        fetch_message_details history users_info mtch target =
          (none, [strL "⚠️ エラー: " ++ code])) ∧
    (∀ (history : Str → Str → HistoryResult) (users_info : Str → Option Str)
        (target : Str) (ms1 ms2 : List RawMatch),
        collect_details history users_info target (ms1 ++ ms2) =
          ((collect_details history users_info target ms1).1 ++
             (collect_details history users_info target ms2).1,
           (collect_details history users_info target ms1).2 ++
             (collect_details history users_info target ms2).2)) := by
  refine ⟨?_, ?_, ?_⟩
  · intro history users_info mtch target code hh hcode
    simp [fetch_message_details, hh, hcode]
  · intro history users_info mtch target code hh hcode
    simp [fetch_message_details, hh, hcode]
  · intro history users_info target ms1 ms2
    induction ms1 with
    | nil => simp [collect_details]
    | cons m ms ih =>
      rcases hr : (fetch_message_details history users_info m target).1 with _ | d <;>
        simp [collect_details, hr, ih]

/-- C7 witness: the silent branch at the always-`channel_not_found`
environment and the surfaced branch at the always-`ratelimited` one. -/
theorem claim_C7_witness :
    fetch_message_details histNotFound usersFail matchEx (strL "pray") = (none, []) ∧
    fetch_message_details histRateLimited usersFail matchEx (strL "pray") =
      (none, [strL "⚠️ エラー: " ++ strL "ratelimited"]) :=
  ⟨claim_C7.1 histNotFound usersFail matchEx (strL "pray") (strL "channel_not_found") rfl rfl,
   claim_C7.2.1 histRateLimited usersFail matchEx (strL "pray") (strL "ratelimited") rfl
     (by decide)⟩

/-- C9: a failed user lookup makes `get_user_name` fall back to the raw
identifier, and a qualifying resolution whose author lookup fails still
returns a record whose author is the raw identifier (the failure is never
propagated). -/
theorem claim_C9 :
    (∀ (users_info : Str → Option Str) (user_id : Str),
        users_info user_id = none →
        get_user_name users_info user_id = user_id) ∧
    (∀ (history : Str → Str → HistoryResult) (users_info : Str → Option Str)
        (mtch : RawMatch) (target : Str) (message : SlackMessage)
        (rest : List SlackMessage) (reactions : List Reaction) (reaction : Reaction)
        (uid : Str),
        history mtch.channel_id mtch.ts = .ok (message :: rest) →
        message.reactions = some reactions →
        reactions.find? (fun r => r.name == target) = some reaction →
        message.user = some uid →
        users_info uid = none →
        (fetch_message_details history users_info mtch target).1.map MessageDetail.user =
          some uid) := by
  constructor
  · intro users_info user_id h
    simp [get_user_name, h]
  · intro history users_info mtch target message rest reactions reaction uid hh hr hf hu hl
    simp [fetch_message_details, hh, hr, hf, get_user_name, hu, hl]

/-- C9 witness: a concrete qualifying message with author `U1` whose lookup
fails resolves to author `U1`. -/
theorem claim_C9_witness :
    get_user_name usersFail (strL "U1") = strL "U1" ∧
    (fetch_message_details histEmptyText usersFail matchEx (strL "pray")).1.map
        MessageDetail.user = some (strL "U1") :=
  ⟨claim_C9.1 usersFail (strL "U1") rfl,
   claim_C9.2 histEmptyText usersFail matchEx (strL "pray")
     { text := some [], user := some (strL "U1"), reactions := some [⟨strL "pray", 5⟩] }
     [] [⟨strL "pray", 5⟩] ⟨strL "pray", 5⟩ (strL "U1") rfl rfl (by decide) rfl rfl⟩

/-- C10: a qualifying message with no `user` key still resolves: the lookup
receives the empty string (`message.get("user", "")`), and when that lookup
fails the record's author is the empty string. -/
theorem claim_C10 (history : Str → Str → HistoryResult) (users_info : Str → Option Str)
    (mtch : RawMatch) (target : Str) (message : SlackMessage)
    (rest : List SlackMessage) (reactions : List Reaction) (reaction : Reaction)
    (hh : history mtch.channel_id mtch.ts = .ok (message :: rest))
    (hr : message.reactions = some reactions)
    (hf : reactions.find? (fun r => r.name == target) = some reaction)
    (hu : message.user = none)
    (hl : users_info [] = none) :
    (fetch_message_details history users_info mtch target).1.map MessageDetail.user =
      some [] := by
  simp [fetch_message_details, hh, hr, hf, get_user_name, hu, hl]

/-- C10 witness: the concrete no-`user`-key environment resolves with the
empty author. -/
theorem claim_C10_witness :
    (fetch_message_details histNoUser usersFail matchEx (strL "pray")).1.map
        MessageDetail.user = some [] :=
  claim_C10 histNoUser usersFail matchEx (strL "pray")
    { text := some (strL "hi"), user := none, reactions := some [⟨strL "pray", 5⟩] }
    [] [⟨strL "pray", 5⟩] ⟨strL "pray", 5⟩ rfl rfl (by decide) rfl rfl

/-- Inserting a record whose count is `c` leaves the earlier records of
count `c` ahead of it and everything else untouched: the ordered insert
passes only records of strictly larger count. -/
theorem filter_orderedInsert_count (x : MessageDetail) (c : Nat) (hx : x.count = c) :
    ∀ l : List MessageDetail,
      (List.orderedInsert (fun p q => q.count ≤ p.count) x l).filter
          (fun r => r.count == c) =
        x :: l.filter (fun r => r.count == c)
  | [] => by simp [hx]
  | y :: ys => by
    by_cases hr : y.count ≤ x.count
    · simp only [List.orderedInsert, if_pos hr]
      simp [hx]
    · have hy : (y.count == c) = false := by
        simp only [beq_eq_false_iff_ne]
        omega
      simp only [List.orderedInsert, if_neg hr]
      simp [hy, filter_orderedInsert_count x c hx ys]

/-- Inserting a record whose count is not `c` does not disturb the records
of count `c`. -/
theorem filter_orderedInsert_ne (x : MessageDetail) (c : Nat) (hx : x.count ≠ c) :
    ∀ l : List MessageDetail,
      (List.orderedInsert (fun p q => q.count ≤ p.count) x l).filter
          (fun r => r.count == c) =
        l.filter (fun r => r.count == c)
  | [] => by simp [hx]
  | y :: ys => by
    by_cases hr : y.count ≤ x.count
    · simp only [List.orderedInsert, if_pos hr]
      simp [hx]
    · simp only [List.orderedInsert, if_neg hr]
      simp [List.filter_cons, filter_orderedInsert_ne x c hx ys]

/-- C8: ranking is a stable sort by reaction count descending with no
secondary key — the output is a permutation of the input, its counts are
non-increasing, the records of any fixed count keep their accumulation
order, and the `[3,10,1,7,5]` example ranks to `[10,7,5,3,1]`. -/
theorem claim_C8 :
    (∀ l : List MessageDetail,
        (rank_messages l).Sorted (fun p q => q.count ≤ p.count)) ∧
    (∀ l : List MessageDetail, (rank_messages l).Perm l) ∧
    (∀ (l : List MessageDetail) (c : Nat),
        (rank_messages l).filter (fun r => r.count == c) =
          l.filter (fun r => r.count == c)) ∧
    (rank_messages [recC 3, recC 10, recC 1, recC 7, recC 5]).map
        (fun r => r.count) = [10, 7, 5, 3, 1] := by
  refine ⟨fun l => List.sorted_insertionSort _ l, fun l => List.perm_insertionSort _ l,
    ?_, by decide⟩
  intro l c
  induction l with
  | nil => rfl
  | cons x xs ih =>
    simp only [rank_messages, List.insertionSort] at ih ⊢
    by_cases hx : x.count = c
    · rw [filter_orderedInsert_count x c hx, ih]
      simp [hx]
    · rw [filter_orderedInsert_ne x c hx, ih]
      simp [hx]
